import Mathlib

/-
Verification of the lazy GraphQL field-resolution/caching layer and helper
utilities of the `template-sandbox` GitHub Actions automation.

The repository ships two historical versions of the proxy layer inside
`.github/workflows/src/GitHub/GraphQLAbstract.js`:
  - version 1 (lines 19-263): registries `_primitiveFields` /
    `_manyToOneFields` / `_manyToManyFields`, a truthiness-guarded `get`
    proxy handler, and per-subclass `_loadPrimitives` batch loaders
    (`Issue.js` lines 208-247, `Label.js` lines 105-145);
  - version 2 (lines 284-627): a `_fields` map from field name to a
    typecast function or entity class, `_getPrimitiveFields`
    (lines 370-390), `_PAGE_SIZE = 20` (line 311), and full `get`
    (lines 449-546) and `set` (lines 591-626) proxy handlers, with
    `Label.create` / `Label._build` (`Label.js` lines 264-372) and
    `ProjectV2Item.create` / `_build` (`src/unnamed/part_004`).

JavaScript values are embedded as `JSValue` (numbers as integers; NaN and
floats play no role in the verified properties); JavaScript objects
(caches, API responses) are association lists `List (String × JSValue)`
whose `List.lookup` is first-match-wins, and in-place object assignment
`obj[k] = v` is `cacheSet` (insert with override).
-/

/-- A JavaScript value: `undefined`, `null`, booleans, numbers (integers),
strings, or an opaque object reference. -/
inductive JSValue : Type
  | undefined : JSValue
  | null : JSValue
  | bool : Bool → JSValue
  | num : Int → JSValue
  | str : String → JSValue
  | obj : Nat → JSValue
deriving DecidableEq, Repr

/-- JavaScript truthiness: `undefined`, `null`, `false`, `0` and the empty
string are falsy; every object is truthy. -/
def truthy : JSValue → Bool
  | JSValue.undefined => false
  | JSValue.null => false
  | JSValue.bool b => b
  | JSValue.num n => n != 0
  | JSValue.str s => s != ""
  | JSValue.obj _ => true

/-- An entity instance as the proxy handlers see it: `props` are the own
properties of the target (identity fields such as `number`, `owner`,
`repository`, set in the constructors), and `_cache` is the lazily
populated field cache (`GraphQLAbstract._cache`). -/
structure GQObject where
  props : List (String × JSValue)
  _cache : List (String × JSValue)
deriving DecidableEq, Repr

/-- Result bundle of a proxied read: the settled outcome (a value, or a
raised error by message), the entity state after the read, the number of
network calls issued, and the field list of every batched primitive query
that was issued. -/
structure ReadOut where
  result : Except String JSValue
  entity : GQObject
  calls : Nat
  queries : List (List String)
deriving Repr

/-- JavaScript object assignment `cache[k] = v`: the new binding shadows
any previous binding of `k`. -/
def cacheSet {V : Type} (c : List (String × V)) (k : String) (v : V) :
    List (String × V) :=
  (k, v) :: c.filter (fun p => p.1 != k)

/-- A `for (const [key, val] of Object.entries(data))` loop writing every
entry of `data` into the cache, in order, later entries shadowing. -/
def cachePopulate {V : Type} (c : List (String × V)) (data : List (String × V)) :
    List (String × V) :=
  data.foldl (fun acc kv => cacheSet acc kv.1 kv.2) c

theorem lookup_filter_ne {V : Type} {c : List (String × V)} {k a : String}
    (h : (k == a) = false) :
    (c.filter (fun p => p.1 != a)).lookup k = c.lookup k := by
  induction c with
  | nil => rfl
  | cons p rest ih =>
      obtain ⟨b, w⟩ := p
      cases hb : (b == a) with
      | true =>
          have hba : b = a := by simpa using hb
          have hkb : (k == b) = false := by rw [hba]; exact h
          simp only [List.filter, bne, hb, Bool.not_true]
          rw [List.lookup, hkb]
          exact ih
      | false =>
          simp only [List.filter, bne, hb, Bool.not_false]
          cases hkb : (k == b) with
          | true => rw [List.lookup, hkb, List.lookup, hkb]
          | false =>
              rw [List.lookup, hkb, List.lookup, hkb]
              exact ih

theorem cacheSet_lookup_self {V : Type} {c : List (String × V)} {k : String} {v : V} :
    (cacheSet c k v).lookup k = some v := by
  rw [cacheSet, List.lookup]
  simp

theorem cacheSet_lookup_ne {V : Type} {c : List (String × V)} {k a : String} {v : V}
    (h : (k == a) = false) : (cacheSet c a v).lookup k = c.lookup k := by
  rw [cacheSet, List.lookup, h]
  exact lookup_filter_ne h

theorem lookup_none_of_not_mem_keys {V : Type} {data : List (String × V)} {k : String}
    (h : k ∉ data.map Prod.fst) : data.lookup k = none := by
  induction data with
  | nil => rfl
  | cons p rest ih =>
      obtain ⟨a, b⟩ := p
      simp only [List.map_cons, List.mem_cons, not_or] at h
      have hka : (k == a) = false := by
        cases hx : (k == a) with
        | true => exact absurd (by simpa using hx) h.1
        | false => rfl
      rw [List.lookup, hka]
      exact ih h.2

theorem not_mem_keys_of_lookup_none {V : Type} {data : List (String × V)} {k : String}
    (h : data.lookup k = none) : k ∉ data.map Prod.fst := by
  induction data with
  | nil => simp
  | cons p rest ih =>
      obtain ⟨a, b⟩ := p
      cases hka : (k == a) with
      | true =>
          rw [List.lookup, hka] at h
          exact Option.noConfusion h
      | false =>
          rw [List.lookup, hka] at h
          simp only [List.map_cons, List.mem_cons, not_or]
          refine ⟨?_, ih h⟩
          intro hbad
          rw [hbad] at hka
          simp at hka

theorem cachePopulate_lookup_not_mem {V : Type} {data : List (String × V)} {k : String}
    (h : k ∉ data.map Prod.fst) :
    ∀ c : List (String × V), (cachePopulate c data).lookup k = c.lookup k := by
  induction data with
  | nil => intro c; rfl
  | cons p rest ih =>
      intro c
      obtain ⟨a, b⟩ := p
      simp only [List.map_cons, List.mem_cons, not_or] at h
      have hka : (k == a) = false := by
        cases hx : (k == a) with
        | true => exact absurd (by simpa using hx) h.1
        | false => rfl
      show (cachePopulate (cacheSet c a b) rest).lookup k = c.lookup k
      rw [ih h.2 (cacheSet c a b)]
      exact cacheSet_lookup_ne hka

theorem cachePopulate_lookup_of_some {V : Type} {data : List (String × V)} {k : String} {v : V}
    (hnd : (data.map Prod.fst).Nodup) (h : data.lookup k = some v) :
    ∀ c : List (String × V), (cachePopulate c data).lookup k = some v := by
  induction data with
  | nil => intro c; exact absurd h (by simp [List.lookup])
  | cons p rest ih =>
      intro c
      obtain ⟨a, b⟩ := p
      simp only [List.map_cons, List.nodup_cons] at hnd
      cases hka : (k == a) with
      | true =>
          have hk : k = a := by simpa using hka
          subst hk
          rw [List.lookup, hka] at h
          have hv : v = b := by
            cases h
            rfl
          subst hv
          show (cachePopulate (cacheSet c k v) rest).lookup k = some v
          rw [cachePopulate_lookup_not_mem hnd.1 (cacheSet c k v)]
          exact cacheSet_lookup_self
      | false =>
          rw [List.lookup, hka] at h
          show (cachePopulate (cacheSet c a b) rest).lookup k = some v
          exact ih hnd.2 h (cacheSet c a b)

theorem cachePopulate_lookup_of_none {V : Type} {data : List (String × V)} {k : String}
    (h : data.lookup k = none) (c : List (String × V)) :
    (cachePopulate c data).lookup k = c.lookup k :=
  cachePopulate_lookup_not_mem (not_mem_keys_of_lookup_none h) c

/-- An entity instance for the `src/unnamed/part_004` embedding:
`assigned` are properties explicitly set on the instance, `_cache` the
field cache. -/
structure Entity (V : Type) where
  assigned : List (String × V)
  _cache : List (String × V)
deriving DecidableEq, Repr

/-- A GraphQL connection object as returned for a collection relation:
`totalCount` reports how many related records exist in total, while
`nodes` carries only the page the server actually returned (a server
honouring `first: pageSize` returns at most `pageSize` nodes). -/
structure Connection (V : Type) where
  totalCount : Nat
  nodes : List (List (String × V))
deriving DecidableEq, Repr

/-- Result of a collection-relation fetch: the built entities, the number
of GraphQL requests issued, and the `first:` bound the single query
requested. -/
structure CreateOut (V : Type) where
  items : List (Entity V)
  graphqlCalls : Nat
  requestedFirst : Nat
deriving DecidableEq, Repr

namespace GraphQLV1

/-- The version-1 field registry of an entity type
(`GraphQLAbstract.js` lines 27-45): the primitive field names and the
keys of the one-to-many and many-to-many maps. -/
structure Registry where
  _primitiveFields : List String
  _manyToOneFields : List String
  _manyToManyFields : List String
deriving DecidableEq, Repr

/-- The version-1 `Issue` registry (`Issue.js` lines 34-124), uncommented
entries only. -/
def issueRegistry : Registry :=
  ⟨["activeLockReason", "authorAssociation", "body", "bodyText", "closed",
    "closedAt", "createdAt", "createdViaEmail", "includesCreatedEdit",
    "isPinned", "isReadByViewer", "lastEditedAt", "locked", "number",
    "publishedAt", "resourcePath", "state", "stateReason", "title",
    "trackedIssuesCount", "updatedAt", "url", "viewerCanClose",
    "viewerCanDelete", "viewerCanReact", "viewerCanReopen",
    "viewerCanSubscribe", "viewerCanUpdate", "viewerCannotUpdateReasons",
    "viewerDidAuthor", "viewerSubscription",
    "viewerThreadSubscriptionFormAction", "viewerThreadSubscriptionStatus"],
   ["author", "editor", "hovercard", "milestone", "reactionGroups", "repository"],
   ["assignees", "comments", "labels", "linkedBranches", "participants",
    "projectCards", "projectItems", "projectsV2", "reactions",
    "timelineItems", "trackedInIssues", "trackedIssues", "userContentEdits"]⟩

/-- The version-1 `get` proxy handler (`GraphQLAbstract.js` lines 189-262)
with the subclass `_loadPrimitives` batch loader inlined in the primitive
branch (shape shared by `Issue.js` lines 208-247, `Label.js`
lines 105-145, and `ProjectV2` in `Issue.js`).

The handler, in source order: `direct = Reflect.get(...)` — inlined below
as the own-property lookup defaulting to `undefined` — is returned when
TRUTHY (a falsy own value falls through); a cached property is returned
from `_cache`; a many-to-many or many-to-one name delegates to the mapped
class `generateSet` / `generate`, which in this version always raises
(the base methods throw NotImplementedError and no subclass overrides
them; the v1 `Issue` maps even hold plain strings, making the call a
TypeError) without any network call; a primitive name runs
`_loadPrimitives`: `loadGuard` is the subclass load-skip test (`Issue`:
`this._issue`, never assigned anywhere; `Label`: `this._cache["name"]`
truthy; at a first read it is false) — when it holds the loader returns
without fetching and the continuation, finding the property still
uncached, throws the ReferenceError; otherwise one GraphQL query embeds
the full `_primitiveFields` list, every entry of the response container
is written into `_cache`, and the continuation returns the now-cached
value or throws the ReferenceError naming the property; an unrecognized
name yields `undefined`. -/
def get (reg : Registry) (loadGuard : Bool) (e : GQObject) (prop : String)
    (primResp : List (String × JSValue)) (relResp : JSValue) : ReadOut :=
  if truthy ((e.props.lookup prop).getD JSValue.undefined) then
    ⟨Except.ok ((e.props.lookup prop).getD JSValue.undefined), e, 0, []⟩
  else
    match e._cache.lookup prop with
    | some v => ⟨Except.ok v, e, 0, []⟩
    | none =>
        if reg._manyToManyFields.contains prop then
          ⟨Except.error "NotImplementedError: generateSet is not implemented in the child class.", e, 0, []⟩
        else if reg._manyToOneFields.contains prop then
          ⟨Except.error "NotImplementedError: generate is not implemented in the child class.", e, 0, []⟩
        else if reg._primitiveFields.contains prop then
          if loadGuard then
            ⟨Except.error ("ReferenceError: Expected primitive " ++ prop ++
               " did not load properly from GitHub API."), e, 0, []⟩
          else
            match (cachePopulate e._cache primResp).lookup prop with
            | some v =>
                ⟨Except.ok v, ⟨e.props, cachePopulate e._cache primResp⟩, 1,
                  [reg._primitiveFields]⟩
            | none =>
                ⟨Except.error ("ReferenceError: Expected primitive " ++ prop ++
                   " did not load properly from GitHub API."),
                  ⟨e.props, cachePopulate e._cache primResp⟩, 1,
                  [reg._primitiveFields]⟩
        else
          ⟨Except.ok JSValue.undefined, e, 0, []⟩

end GraphQLV1

namespace GraphQLV2

/-- The two shapes a version-2 `_fields` entry can have
(`GraphQLAbstract.js` lines 286-304): a typecast function (primitive), or
a `GraphQLAbstract` subclass (`func.prototype instanceof GraphQLAbstract`,
a relational field). -/
inductive Field2 : Type
  | primitive : Field2
  | relational : Field2
deriving DecidableEq, Repr

/-- `GraphQLAbstract._getPrimitiveFields` (lines 370-390): the `_fields`
entries whose function is not a `GraphQLAbstract` subclass. -/
def _getPrimitiveFields (fields2 : List (String × Field2)) : List String :=
  (fields2.filter (fun p => p.2 = Field2.primitive)).map (fun p => p.1)

/-- `GraphQLAbstract._PAGE_SIZE` (line 311): the default number of items
per page when generating collection relations. -/
def _PAGE_SIZE : Nat := 20

/-- The response-entries loop of the version-2 primitive branch
(lines 525-539): each `[key, value]` of the container object is typecast
(`func(value)`, or `func._build(value)` for a relational entry — both
abstracted as `applyField`) and written into `_cache`; a response key
absent from `_fields` makes `func` undefined and `func.prototype` raise a
TypeError, leaving the cache writes made so far in place. Returns the
raised message, if any, and the resulting cache. -/
def populate (fields2 : List (String × Field2))
    (applyField : String → JSValue → JSValue) :
    List (String × JSValue) → List (String × JSValue) →
      Option String × List (String × JSValue)
  | cache, [] => (none, cache)
  | cache, kv :: rest =>
      match fields2.lookup kv.1 with
      | none => (some "TypeError: Cannot read properties of undefined (reading prototype)", cache)
      | some _ =>
          populate fields2 applyField (cacheSet cache kv.1 (applyField kv.1 kv.2)) rest

theorem populate_snd_lookup_not_mem {fields2 : List (String × Field2)}
    {applyField : String → JSValue → JSValue} {data : List (String × JSValue)} {k : String}
    (h : k ∉ data.map Prod.fst) :
    ∀ cache : List (String × JSValue),
      ((populate fields2 applyField cache data).2).lookup k = cache.lookup k := by
  induction data with
  | nil => intro cache; rfl
  | cons kv rest ih =>
      intro cache
      obtain ⟨a, b⟩ := kv
      simp only [List.map_cons, List.mem_cons, not_or] at h
      have hka : (k == a) = false := by
        cases hx : (k == a) with
        | true => exact absurd (by simpa using hx) h.1
        | false => rfl
      cases hf : fields2.lookup a with
      | none => simp only [populate, hf]
      | some f =>
          simp only [populate, hf]
          rw [ih h.2 (cacheSet cache a (applyField a b))]
          exact cacheSet_lookup_ne hka

theorem populate_fst_none {fields2 : List (String × Field2)}
    {applyField : String → JSValue → JSValue} {data : List (String × JSValue)}
    (h : ∀ kv ∈ data, (fields2.lookup kv.1).isSome) :
    ∀ cache : List (String × JSValue),
      (populate fields2 applyField cache data).1 = none := by
  induction data with
  | nil => intro cache; rfl
  | cons kv rest ih =>
      intro cache
      obtain ⟨a, b⟩ := kv
      have ha : (fields2.lookup a).isSome := h (a, b) (List.mem_cons_self _ _)
      cases hf : fields2.lookup a with
      | none => rw [hf] at ha; exact absurd ha (by simp)
      | some f =>
          simp only [populate, hf]
          exact ih (fun kv hkv => h kv (List.mem_cons_of_mem _ hkv)) _

/-- The version-2 `get` proxy handler (`GraphQLAbstract.js` lines 449-546).
In source order: `direct = Reflect.get(...)` (inlined as the own-property
lookup defaulting to `undefined`) is returned whenever it is DEFINED
(`typeof direct !== "undefined"`, lines 459-461); a name absent from the
`_fields` map returns `direct`, i.e. `undefined` (lines 463-467); a cached
name returns the cache entry (lines 469-473); a relational entry delegates
to the mapped class `create` — one API call, result cached and returned
(lines 478-491; `relResp` is that call's result, e.g. the Label set
`Label.create` builds for an Issue); a primitive entry runs the query of
`_getGraphQLQuery` (one GraphQL call, its field list
`_getPrimitiveFields`), descends the container path — a missing container
key (`containerMissing`) raises the ReferenceError naming that key
(lines 516-522) — runs the entries loop (`populate`), and finally returns
`target._cache[sProp]`, which is `undefined` when the response omitted the
requested field: no error is raised for an omitted field (line 542). -/
def get (fields2 : List (String × Field2)) (applyField : String → JSValue → JSValue)
    (e : GQObject) (prop : String) (containerMissing : Option String)
    (primResp : List (String × JSValue)) (relResp : JSValue) : ReadOut :=
  if ((e.props.lookup prop).getD JSValue.undefined) = JSValue.undefined then
    match fields2.lookup prop with
    | none => ⟨Except.ok JSValue.undefined, e, 0, []⟩
    | some f =>
        match e._cache.lookup prop with
        | some v => ⟨Except.ok v, e, 0, []⟩
        | none =>
            match f with
            | Field2.relational =>
                ⟨Except.ok relResp, ⟨e.props, cacheSet e._cache prop relResp⟩, 1, []⟩
            | Field2.primitive =>
                match containerMissing with
                | some key =>
                    ⟨Except.error ("ReferenceError: Expected container key " ++ key ++
                       " in GraphQL response not found."), e, 1,
                      [_getPrimitiveFields fields2]⟩
                | none =>
                    match populate fields2 applyField e._cache primResp with
                    | (some msg, cache2) =>
                        ⟨Except.error msg, ⟨e.props, cache2⟩, 1,
                          [_getPrimitiveFields fields2]⟩
                    | (none, cache2) =>
                        ⟨Except.ok ((cache2.lookup prop).getD JSValue.undefined),
                          ⟨e.props, cache2⟩, 1, [_getPrimitiveFields fields2]⟩
  else
    ⟨Except.ok ((e.props.lookup prop).getD JSValue.undefined), e, 0, []⟩

/-- Outcome of the version-2 `set` proxy handler: the settled result
(`true`, or a raised error by message) and the entity state afterwards. -/
structure SetOut where
  outcome : Except String Bool
  entity : GQObject
deriving Repr

/-- The version-2 `set` proxy handler (`GraphQLAbstract.js` lines 591-626).
`Reflect.has(target, prop)` (modelled as own-property presence; declared
class fields count) clears the whole cache and performs the assignment
(lines 600-606). Otherwise, a `_fields` entry that is a `GraphQLAbstract`
subclass raises NotImplementedError (lines 612-616); a primitive `_fields`
entry typecasts the value into the cache (`target._cache[sProp] =
func(value)`, line 621) — and then, there being NO return statement after
it, control falls through to the unconditional
`throw new TypeError(...)` (line 625), which also handles every unmapped
name. No GraphQL mutation is ever sent (the update is a TODO,
line 618). -/
def set (fields2 : List (String × Field2)) (applyField : String → JSValue → JSValue)
    (e : GQObject) (prop : String) (v : JSValue) : SetOut :=
  if (e.props.lookup prop).isSome then
    ⟨Except.ok true, ⟨cacheSet e.props prop v, []⟩⟩
  else
    match fields2.lookup prop with
    | some Field2.relational => ⟨Except.error "NotImplementedError", e⟩
    | some Field2.primitive =>
        ⟨Except.error ("TypeError: Property " ++ prop ++
           " cannot be set on a GraphQL object."),
          ⟨e.props, cacheSet e._cache prop (applyField prop v)⟩⟩
    | none =>
        ⟨Except.error ("TypeError: Property " ++ prop ++
           " cannot be set on a GraphQL object."), e⟩

end GraphQLV2

namespace IssueV2

/-- The version-2 `Issue._fields` map (`src/unnamed/part_003`,
lines 24-85), uncommented entries only: `labels`, `trackedInIssues` and
`trackedIssues` map to entity classes, everything else to typecasts. -/
def _fields : List (String × GraphQLV2.Field2) :=
  [("activeLockReason", GraphQLV2.Field2.primitive),
   ("authorAssociation", GraphQLV2.Field2.primitive),
   ("body", GraphQLV2.Field2.primitive),
   ("bodyHTML", GraphQLV2.Field2.primitive),
   ("bodyResourcePath", GraphQLV2.Field2.primitive),
   ("bodyText", GraphQLV2.Field2.primitive),
   ("bodyUrl", GraphQLV2.Field2.primitive),
   ("closed", GraphQLV2.Field2.primitive),
   ("closedAt", GraphQLV2.Field2.primitive),
   ("createdAt", GraphQLV2.Field2.primitive),
   ("createdViaEmail", GraphQLV2.Field2.primitive),
   ("databaseId", GraphQLV2.Field2.primitive),
   ("fullDatabaseId", GraphQLV2.Field2.primitive),
   ("includesCreatedEdit", GraphQLV2.Field2.primitive),
   ("isPinned", GraphQLV2.Field2.primitive),
   ("isReadByViewer", GraphQLV2.Field2.primitive),
   ("labels", GraphQLV2.Field2.relational),
   ("lastEditedAt", GraphQLV2.Field2.primitive),
   ("locked", GraphQLV2.Field2.primitive),
   ("number", GraphQLV2.Field2.primitive),
   ("publishedAt", GraphQLV2.Field2.primitive),
   ("resourcePath", GraphQLV2.Field2.primitive),
   ("state", GraphQLV2.Field2.primitive),
   ("stateReason", GraphQLV2.Field2.primitive),
   ("title", GraphQLV2.Field2.primitive),
   ("titleHTML", GraphQLV2.Field2.primitive),
   ("trackedInIssues", GraphQLV2.Field2.relational),
   ("trackedIssues", GraphQLV2.Field2.relational),
   ("trackedIssuesCount", GraphQLV2.Field2.primitive),
   ("updatedAt", GraphQLV2.Field2.primitive),
   ("url", GraphQLV2.Field2.primitive),
   ("viewerCanClose", GraphQLV2.Field2.primitive),
   ("viewerCanDelete", GraphQLV2.Field2.primitive),
   ("viewerCanReact", GraphQLV2.Field2.primitive),
   ("viewerCanReopen", GraphQLV2.Field2.primitive),
   ("viewerCanSubscribe", GraphQLV2.Field2.primitive),
   ("viewerCanUpdate", GraphQLV2.Field2.primitive),
   ("viewerDidAuthor", GraphQLV2.Field2.primitive),
   ("viewerSubscription", GraphQLV2.Field2.primitive),
   ("viewerThreadSubscriptionFormAction", GraphQLV2.Field2.primitive),
   ("viewerThreadSubscriptionStatus", GraphQLV2.Field2.primitive)]

end IssueV2

namespace LabelV2

/-- The version-2 `Label._fields` map (`Label.js` lines 195-208),
uncommented entries only — all typecasts. -/
def _fields : List (String × GraphQLV2.Field2) :=
  [("color", GraphQLV2.Field2.primitive),
   ("createdAt", GraphQLV2.Field2.primitive),
   ("description", GraphQLV2.Field2.primitive),
   ("id", GraphQLV2.Field2.primitive),
   ("isDefault", GraphQLV2.Field2.primitive),
   ("name", GraphQLV2.Field2.primitive),
   ("resourcePath", GraphQLV2.Field2.primitive),
   ("updatedAt", GraphQLV2.Field2.primitive),
   ("url", GraphQLV2.Field2.primitive)]

/-- The own properties the `Label` constructor (`Label.js` lines 244-259)
sets from `new Label(data["name"], data["repository"], data["owner"])`:
`repository` and `owner` fall back to the action context values when the
argument is falsy. -/
def buildProps (ctxRepo ctxOwner : JSValue) (data : List (String × JSValue)) :
    List (String × JSValue) :=
  [("name", (data.lookup "name").getD JSValue.undefined),
   ("repository",
     if truthy ((data.lookup "repository").getD JSValue.undefined) then
       (data.lookup "repository").getD JSValue.undefined
     else ctxRepo),
   ("owner",
     if truthy ((data.lookup "owner").getD JSValue.undefined) then
       (data.lookup "owner").getD JSValue.undefined
     else ctxOwner)]

/-- One step of the entries loop of `Label._build` (`Label.js`
lines 362-369): with `ignoreAdditional` unset, a key outside `_fields`
raises a ReferenceError; otherwise the pair is written into the cache. -/
def buildStep (ignoreAdditional : Bool)
    (acc : Except String (List (String × JSValue))) (kv : String × JSValue) :
    Except String (List (String × JSValue)) :=
  match acc with
  | Except.error e => Except.error e
  | Except.ok cache =>
      if !ignoreAdditional && (_fields.lookup kv.1).isNone then
        Except.error ("ReferenceError: Unexpected field in Label data: " ++ kv.1)
      else
        Except.ok (cacheSet cache kv.1 kv.2)

/-- `Label._build(data, ignoreAdditional = true)` (`Label.js`
lines 346-372). The required-field check (lines 354-358) reads
`if (!key in data)`: `!` binds before `in`, so for the first key
("owner") it evaluates `false in data`, i.e. tests whether `data` has a
property named "false", and throws the Missing-required error — naming
"owner" — exactly then; the `.every` callback returns `undefined`
(falsy), so iteration stops after that first key either way. The
constructor then builds the own properties and the entries loop copies
`data` into the cache. -/
def _build (ctxRepo ctxOwner : JSValue) (data : List (String × JSValue))
    (ignoreAdditional : Bool) : Except String GQObject :=
  if (data.lookup "false").isSome then
    Except.error "ReferenceError: Missing required Label field: owner"
  else
    match data.foldl (buildStep ignoreAdditional) (Except.ok []) with
    | Except.error e => Except.error e
    | Except.ok cache => Except.ok ⟨buildProps ctxRepo ctxOwner data, cache⟩

/-- The entity `_build` produces when no check fires: own properties from
the constructor, cache holding every entry of `data`. -/
def _buildTrue (ctxRepo ctxOwner : JSValue) (data : List (String × JSValue)) :
    GQObject :=
  ⟨buildProps ctxRepo ctxOwner data, cachePopulate [] data⟩

theorem labelBuildStep_true_ok (data : List (String × JSValue)) :
    ∀ cache : List (String × JSValue),
      data.foldl (buildStep true) (Except.ok cache) =
        Except.ok (cachePopulate cache data) := by
  induction data with
  | nil => intro cache; rfl
  | cons kv rest ih =>
      intro cache
      rw [List.foldl_cons]
      have hstep : buildStep true (Except.ok cache) kv =
          Except.ok (cacheSet cache kv.1 kv.2) := by
        simp [buildStep]
      rw [hstep]
      exact ih _

theorem label_build_true_eq (ctxRepo ctxOwner : JSValue) (data : List (String × JSValue))
    (h : data.lookup "false" = none) :
    _build ctxRepo ctxOwner data true =
      Except.ok (_buildTrue ctxRepo ctxOwner data) := by
  rw [_build, h]
  simp only [Option.isSome_none, Bool.false_eq_true, if_false]
  rw [labelBuildStep_true_ok data []]
  rfl

/-- JavaScript property assignment `data[k] = v` on a response node
(`Label.js` lines 321-322): replaces an existing binding in place,
otherwise appends the key at the end, as object key order does. -/
def setKey (data : List (String × JSValue)) (k : String) (v : JSValue) :
    List (String × JSValue) :=
  if (data.lookup k).isSome then
    data.map (fun p => if p.1 = k then (k, v) else p)
  else
    data ++ [(k, v)]

/-- `Promise.all` over per-node `_build` calls: the first rejection wins,
else the list of built entities in order. -/
def buildAll (f : List (String × JSValue) → Except String GQObject) :
    List (List (String × JSValue)) → Except String (List GQObject)
  | [] => Except.ok []
  | d :: rest =>
      match f d with
      | Except.error e => Except.error e
      | Except.ok x =>
          match buildAll f rest with
          | Except.error e => Except.error e
          | Except.ok xs => Except.ok (x :: xs)

theorem buildAll_ok_length {f : List (String × JSValue) → Except String GQObject}
    {l : List (List (String × JSValue))} {xs : List GQObject}
    (h : buildAll f l = Except.ok xs) : xs.length = l.length := by
  induction l generalizing xs with
  | nil =>
      rw [buildAll] at h
      cases h
      rfl
  | cons d rest ih =>
      rw [buildAll] at h
      cases hd : f d with
      | error e => rw [hd] at h; exact Except.noConfusion h
      | ok x =>
          rw [hd] at h
          cases hr : buildAll f rest with
          | error e => rw [hr] at h; exact Except.noConfusion h
          | ok xs0 =>
              rw [hr] at h
              cases h
              rw [List.length_cons, ih hr]
              rfl

/-- Result of `Label.create`: the settled outcome (the built Label set, or
the first raised error), the number of GraphQL requests issued, and the
`first:` bound the single query requested. -/
structure CreateOut2 where
  result : Except String (List GQObject)
  graphqlCalls : Nat
  requestedFirst : Nat
deriving Repr

/-- `Label.create(caller, pageSize = GraphQLAbstract._PAGE_SIZE)` for an
`Issue` caller (`Label.js` lines 264-341): one GraphQL query whose
`pageSize` variable is bound to `labels (first: $pageSize)`; a missing
`labels` connection yields `[]`; otherwise every returned node gets the
caller owner and repository added (lines 321-322) and goes through
`_build` with its default `ignoreAdditional = true`. The `TODO
Pagination` comment (line 314) marks that no follow-up page is ever
requested. -/
def create (ctxRepo ctxOwner owner repository : JSValue)
    (resp : Option (Connection JSValue)) (pageSize : Nat) : CreateOut2 :=
  match resp with
  | none => ⟨Except.ok [], 1, pageSize⟩
  | some conn =>
      ⟨buildAll
         (fun data =>
           _build ctxRepo ctxOwner
             (setKey (setKey data "owner" owner) "repository" repository) true)
         conn.nodes, 1, pageSize⟩

end LabelV2

namespace ProjectV2Item

/-- `ProjectV2Item._PAGE_SIZE` (`src/unnamed/part_004`, line 42). -/
def PAGE_SIZE : Nat := 2

/-- The keys of `ProjectV2Item._fields` (part_004, lines 25-37),
uncommented entries only. -/
def fieldNames : List String :=
  ["createdAt", "databaseId", "fieldValues", "id", "isArchived", "updatedAt"]

/-- One step of the `for (const [key, val] of Object.entries(data))` loop
of `ProjectV2Item._build` (part_004, lines 152-159): with
`ignoreAdditional` unset, a key outside `_fields` throws a
`ReferenceError`; otherwise the pair is written directly into the cache.
Later writes to the same key shadow earlier ones, as in a JS object. -/
def buildStep (ignoreAdditional : Bool) (acc : Except String (List (String × V)))
    (kv : String × V) : Except String (List (String × V)) :=
  match acc with
  | Except.error e => Except.error e
  | Except.ok cache =>
      if !ignoreAdditional && !(fieldNames.contains kv.1) then
        Except.error ("ReferenceError: Unexpected field in Label data: " ++ kv.1)
      else
        Except.ok ((kv.1, kv.2) :: cache.filter (fun p => p.1 != kv.1))

/-- `ProjectV2Item._build(data, ignoreAdditional = true)` (part_004,
lines 142-162): constructs a fresh item and copies every key/value pair of
`data` onto its `_cache`. -/
def build (data : List (String × V)) (ignoreAdditional : Bool) :
    Except String (Entity V) :=
  match data.foldl (buildStep ignoreAdditional) (Except.ok []) with
  | Except.error e => Except.error e
  | Except.ok cache => Except.ok ⟨[], cache⟩

/-- The entity `_build` produces when the field check is skipped; with
`ignoreAdditional = true` the loop never throws, so `build` always
succeeds with this value (see `build_true_eq`). -/
def buildTrue (data : List (String × V)) : Entity V :=
  ⟨[], data.foldl (fun cache kv => (kv.1, kv.2) :: cache.filter (fun p => p.1 != kv.1)) []⟩

theorem buildStep_true_ok (data : List (String × V)) :
    ∀ cache : List (String × V),
      data.foldl (buildStep true) (Except.ok cache) =
        Except.ok (data.foldl (fun c kv => (kv.1, kv.2) :: c.filter (fun p => p.1 != kv.1)) cache) := by
  induction data with
  | nil => intro cache; rfl
  | cons kv rest ih =>
      intro cache
      rw [List.foldl_cons, List.foldl_cons]
      have hstep : buildStep true (Except.ok cache) kv =
          Except.ok ((kv.1, kv.2) :: cache.filter (fun p => p.1 != kv.1)) := by
        simp [buildStep]
      rw [hstep]
      exact ih _

theorem build_true_eq (data : List (String × V)) :
    build data true = Except.ok (buildTrue data) := by
  rw [build, buildStep_true_ok data []]
  rfl

/-- `ProjectV2Item.create(caller)` for an `Issue` caller (part_004,
lines 65-132): issues exactly one GraphQL query whose `pageSize` variable
is bound to `first:` in the query text; a missing `projectItems`
connection yields `[]`; otherwise each returned node is passed through
`_build` (with its default `ignoreAdditional = true`). The `TODO
Pagination` comment marks that no follow-up page is ever requested. -/
def create (resp : Option (Connection V)) (pageSize : Nat) : CreateOut V :=
  match resp with
  | none => ⟨[], 1, pageSize⟩
  | some conn => ⟨conn.nodes.map buildTrue, 1, pageSize⟩

end ProjectV2Item

namespace Logger

/-- The calls a caller can make against a `Logger`'s group-tracking state
(`src/unnamed/part_001`, lines 479-515). -/
inductive Op : Type
  | startGroup : Op
  | endGroup : Op
  | endAllGroups : Op
deriving DecidableEq, Repr

/-- `Logger.endGroup` on a given `_groupLevel`: throws a `RangeError` when
the level is not positive, otherwise logs the end marker and decrements
(part_001, lines 495-502). -/
def endGroupRun (n : Int) : Except String Int :=
  if n ≤ 0 then
    Except.error "RangeError: Attempting to close logging group that Logger did not create."
  else
    Except.ok (n - 1)

/-- Fuel-indexed unfolding of the `while (this._groupLevel > 0)` loop of
`Logger.endAllGroups` (part_001, lines 511-515); each iteration calls
`endGroup`, and a thrown error (impossible while the guard holds) would
leave the level unchanged. -/
def endAllGroupsAux : Nat → Int → Int
  | 0, n => n
  | fuel + 1, n =>
      if 0 < n then
        match endGroupRun n with
        | Except.ok m => endAllGroupsAux fuel m
        | Except.error _ => n
      else n

/-- `Logger.endAllGroups`: run the loop; `n.toNat` iterations of fuel
always suffice because each pass decrements the level by one. -/
def endAllGroupsRun (n : Int) : Int :=
  endAllGroupsAux n.toNat n

/-- Effect of one public call on `_groupLevel`. `startGroup` increments
(part_001, lines 479-482); `endGroup` decrements unless it throws, in
which case the level is untouched; `endAllGroups` runs the draining loop. -/
def runOp (n : Int) : Op → Int
  | Op.startGroup => n + 1
  | Op.endGroup =>
      match endGroupRun n with
      | Except.ok m => m
      | Except.error _ => n
  | Op.endAllGroups => endAllGroupsRun n

/-- `_groupLevel` reached after a call sequence, starting from the
initializer value `0` (part_001, line 90). -/
def runOps (ops : List Op) : Int :=
  ops.foldl runOp 0

theorem endAllGroupsAux_eq_zero {fuel : Nat} :
    ∀ {n : Int}, 0 ≤ n → n.toNat ≤ fuel → endAllGroupsAux fuel n = 0 := by
  induction fuel with
  | zero =>
      intro n h0 hf
      have hn : n = 0 := by omega
      simp [endAllGroupsAux, hn]
  | succ f ih =>
      intro n h0 hf
      by_cases hpos : 0 < n
      · have hng : ¬ n ≤ 0 := by omega
        simp only [endAllGroupsAux, hpos, if_true, endGroupRun, hng, if_false]
        exact ih (by omega) (by omega)
      · have hn : n = 0 := by omega
        simp [endAllGroupsAux, hn]

theorem endAllGroupsRun_eq_zero {n : Int} (h0 : 0 ≤ n) : endAllGroupsRun n = 0 :=
  endAllGroupsAux_eq_zero h0 (Nat.le_refl _)

theorem runOp_nonneg {n : Int} (h0 : 0 ≤ n) (op : Op) : 0 ≤ runOp n op := by
  cases op with
  | startGroup => simp only [runOp]; omega
  | endGroup =>
      by_cases hle : n ≤ 0
      · simp only [runOp, endGroupRun, hle, if_true]
        exact h0
      · simp only [runOp, endGroupRun, hle, if_false]
        omega
  | endAllGroups =>
      simp only [runOp, endAllGroupsRun_eq_zero h0]
      exact Int.le_refl 0

theorem foldl_runOp_nonneg (ops : List Op) :
    ∀ {n : Int}, 0 ≤ n → 0 ≤ ops.foldl runOp n := by
  induction ops with
  | nil => intro n h0; simpa using h0
  | cons op rest ih =>
      intro n h0
      rw [List.foldl_cons]
      exact ih (runOp_nonneg h0 op)

theorem runOps_nonneg (ops : List Op) : 0 ≤ runOps ops :=
  foldl_runOp_nonneg ops (Int.le_refl 0)

end Logger

namespace IssueREST

/-- The mutable state of the REST-based `Issue` (`src/unnamed/part_002`):
`_issue` is the cached Issue data object, absent until `_load` first
populates it and deleted by the mutation paths. -/
structure State (V : Type) where
  _issue : Option (List (String × V))
deriving DecidableEq, Repr

/-- `Issue._load` (part_002, lines 132-165): a cache hit (data present and
`force` unset) returns without a call; otherwise one REST `issues.get`
call is made, a non-2xx status throws a `ReferenceError`, and a 2xx
response replaces `_issue` with the response data. Returns the resulting
state (or error) together with the number of REST calls issued. -/
def loadRun (st : State V) (force : Bool) (status : Nat) (data : List (String × V)) :
    Except String (State V) × Nat :=
  if st._issue.isSome && !force then
    (Except.ok st, 0)
  else if status < 200 || 299 < status then
    (Except.error "ReferenceError: Unable to load Issue.", 1)
  else
    (Except.ok ⟨some data⟩, 1)

/-- The `get` proxy handler of part_002 (lines 194-214): a property set on
the instance itself is returned with no call; otherwise `_load` runs and
the property is read from the loaded `_issue` data. Owing to the
`!prop in Object.keys(...)` precedence slip in the source, the existence
check reduces to `!this._issue`, so an absent key returns JavaScript
`undefined` (here `none`) rather than throwing. Returns the produced
value (or error), the state after the read, and the REST call count. -/
def getRun (inst : List (String × V)) (st : State V) (prop : String)
    (status : Nat) (data : List (String × V)) :
    Except String (Option V) × State V × Nat :=
  match inst.lookup prop with
  | some v => (Except.ok (some v), st, 0)
  | none =>
      match loadRun st false status data with
      | (Except.error e, n) => (Except.error e, st, n)
      | (Except.ok st2, n) =>
          match st2._issue with
          | none => (Except.error "ReferenceError: Property does not exist in object or Issue data.", st2, n)
          | some d => (Except.ok (d.lookup prop), st2, n)

/-- `Issue.addLabels` (part_002, lines 228-256): one REST `addLabels` call;
its success callback logs, performs `delete this._issue` — clearing the
cache — and then calls the undeclared `resolve()`, so the returned promise
rejects with a `ReferenceError` after the cache is already cleared.
Returns the state after the callback, the callback outcome, and the REST
call count. -/
def addLabelsRun (st : State V) (labels : List String) :
    State V × Except String Unit × Nat :=
  (⟨none⟩, Except.error "ReferenceError: resolve is not defined", 1)

/-- `Issue.removeLabels` (part_002, lines 269-307): one REST `removeLabel`
call per label, aggregated with `Promise.all`, whose `finally` clears the
cache with `delete this._issue` whether the calls succeeded or not. -/
def removeLabelsRun (st : State V) (labels : List String) : State V × Nat :=
  (⟨none⟩, labels.length)

end IssueREST

/-- C1: on the version-1 proxy (the claim's cited code: `GraphQLAbstract.js`
lines 245-258 with the `Issue._loadPrimitives` loader, `Issue.js`
lines 208-247), the first read of a registered primitive field that is
neither set on the instance nor cached issues exactly one batched fetch,
the single query is the type's full `_primitiveFields` list (so every
declared primitive field is in it, not just the requested one), every
field of the response container lands in the cache, and the requested
field's now-cached value is returned. `loadGuard` is `false` because at a
first read no prior load has happened. -/
theorem first_primitive_read_batches_all_fields_v1
    (reg : GraphQLV1.Registry) (e : GQObject) (prop : String)
    (primResp : List (String × JSValue)) (relResp : JSValue)
    (h1 : e.props.lookup prop = none)
    (h2 : e._cache.lookup prop = none)
    (h3 : reg._manyToManyFields.contains prop = false)
    (h4 : reg._manyToOneFields.contains prop = false)
    (h5 : reg._primitiveFields.contains prop = true)
    (h6 : (primResp.map Prod.fst).Nodup) :
    (GraphQLV1.get reg false e prop primResp relResp).calls = 1 ∧
    (GraphQLV1.get reg false e prop primResp relResp).queries = [reg._primitiveFields] ∧
    (∀ f, f ∈ reg._primitiveFields →
      ∀ q ∈ (GraphQLV1.get reg false e prop primResp relResp).queries, f ∈ q) ∧
    (∀ k v, primResp.lookup k = some v →
      (GraphQLV1.get reg false e prop primResp relResp).entity._cache.lookup k = some v) ∧
    (∀ v, primResp.lookup prop = some v →
      (GraphQLV1.get reg false e prop primResp relResp).result = Except.ok v ∧
      (GraphQLV1.get reg false e prop primResp relResp).entity._cache.lookup prop = some v) := by
  cases hc : (cachePopulate e._cache primResp).lookup prop with
  | some w =>
      have hred : GraphQLV1.get reg false e prop primResp relResp =
          ⟨Except.ok w, ⟨e.props, cachePopulate e._cache primResp⟩, 1,
            [reg._primitiveFields]⟩ := by
        simp only [GraphQLV1.get, h1, Option.getD_none, truthy, Bool.false_eq_true,
          if_false, h2, h3, h4, h5, if_true, hc]
      refine ⟨by rw [hred], by rw [hred], ?_, ?_, ?_⟩
      · intro f hf q hq
        rw [hred] at hq
        simp only [List.mem_singleton] at hq
        rw [hq]
        exact hf
      · intro k v hv
        rw [hred]
        exact cachePopulate_lookup_of_some h6 hv e._cache
      · intro v hv
        have hl : (cachePopulate e._cache primResp).lookup prop = some v :=
          cachePopulate_lookup_of_some h6 hv e._cache
        rw [hc] at hl
        cases hl
        exact ⟨by rw [hred], by rw [hred]; exact cachePopulate_lookup_of_some h6 hv e._cache⟩
  | none =>
      have hred : GraphQLV1.get reg false e prop primResp relResp =
          ⟨Except.error ("ReferenceError: Expected primitive " ++ prop ++
             " did not load properly from GitHub API."),
            ⟨e.props, cachePopulate e._cache primResp⟩, 1, [reg._primitiveFields]⟩ := by
        simp only [GraphQLV1.get, h1, Option.getD_none, truthy, Bool.false_eq_true,
          if_false, h2, h3, h4, h5, if_true, hc]
      refine ⟨by rw [hred], by rw [hred], ?_, ?_, ?_⟩
      · intro f hf q hq
        rw [hred] at hq
        simp only [List.mem_singleton] at hq
        rw [hq]
        exact hf
      · intro k v hv
        rw [hred]
        exact cachePopulate_lookup_of_some h6 hv e._cache
      · intro v hv
        have hl : (cachePopulate e._cache primResp).lookup prop = some v :=
          cachePopulate_lookup_of_some h6 hv e._cache
        rw [hc] at hl
        exact Option.noConfusion hl

/-- C1 witness: first read of `title` on a fresh version-1 Issue. -/
theorem first_primitive_read_batches_all_fields_v1_witness :
    ((⟨[("number", JSValue.num 42), ("repository", JSValue.str "widgets"),
        ("owner", JSValue.str "acme")], []⟩ : GQObject).props.lookup "title" = none) ∧
    ((⟨[("number", JSValue.num 42), ("repository", JSValue.str "widgets"),
        ("owner", JSValue.str "acme")], []⟩ : GQObject)._cache.lookup "title" = none) ∧
    GraphQLV1.issueRegistry._manyToManyFields.contains "title" = false ∧
    GraphQLV1.issueRegistry._manyToOneFields.contains "title" = false ∧
    GraphQLV1.issueRegistry._primitiveFields.contains "title" = true ∧
    (([("title", JSValue.str "Hello"), ("state", JSValue.str "OPEN")].map Prod.fst).Nodup) ∧
    ((GraphQLV1.get GraphQLV1.issueRegistry false
       ⟨[("number", JSValue.num 42), ("repository", JSValue.str "widgets"),
         ("owner", JSValue.str "acme")], []⟩ "title"
       [("title", JSValue.str "Hello"), ("state", JSValue.str "OPEN")] JSValue.undefined).calls = 1 ∧
     (GraphQLV1.get GraphQLV1.issueRegistry false
       ⟨[("number", JSValue.num 42), ("repository", JSValue.str "widgets"),
         ("owner", JSValue.str "acme")], []⟩ "title"
       [("title", JSValue.str "Hello"), ("state", JSValue.str "OPEN")] JSValue.undefined).queries =
       [GraphQLV1.issueRegistry._primitiveFields] ∧
     (∀ f, f ∈ GraphQLV1.issueRegistry._primitiveFields →
       ∀ q ∈ (GraphQLV1.get GraphQLV1.issueRegistry false
         ⟨[("number", JSValue.num 42), ("repository", JSValue.str "widgets"),
           ("owner", JSValue.str "acme")], []⟩ "title"
         [("title", JSValue.str "Hello"), ("state", JSValue.str "OPEN")] JSValue.undefined).queries, f ∈ q) ∧
     (∀ k v, [("title", JSValue.str "Hello"), ("state", JSValue.str "OPEN")].lookup k = some v →
       (GraphQLV1.get GraphQLV1.issueRegistry false
         ⟨[("number", JSValue.num 42), ("repository", JSValue.str "widgets"),
           ("owner", JSValue.str "acme")], []⟩ "title"
         [("title", JSValue.str "Hello"), ("state", JSValue.str "OPEN")] JSValue.undefined).entity._cache.lookup k = some v) ∧
     (∀ v, [("title", JSValue.str "Hello"), ("state", JSValue.str "OPEN")].lookup "title" = some v →
       (GraphQLV1.get GraphQLV1.issueRegistry false
         ⟨[("number", JSValue.num 42), ("repository", JSValue.str "widgets"),
           ("owner", JSValue.str "acme")], []⟩ "title"
         [("title", JSValue.str "Hello"), ("state", JSValue.str "OPEN")] JSValue.undefined).result = Except.ok v ∧
       (GraphQLV1.get GraphQLV1.issueRegistry false
         ⟨[("number", JSValue.num 42), ("repository", JSValue.str "widgets"),
           ("owner", JSValue.str "acme")], []⟩ "title"
         [("title", JSValue.str "Hello"), ("state", JSValue.str "OPEN")] JSValue.undefined).entity._cache.lookup "title" = some v)) :=
  ⟨by decide, by decide, by decide, by decide, by decide, by decide,
    first_primitive_read_batches_all_fields_v1 GraphQLV1.issueRegistry
      ⟨[("number", JSValue.num 42), ("repository", JSValue.str "widgets"),
        ("owner", JSValue.str "acme")], []⟩ "title"
      [("title", JSValue.str "Hello"), ("state", JSValue.str "OPEN")] JSValue.undefined
      (by decide) (by decide) (by decide) (by decide) (by decide) (by decide)⟩

/-- C2 counterexample: on the version-1 proxy, the falsy assigned value
`number = 0` slips through the `if (direct)` truthiness guard — `number`
is in `Issue._primitiveFields`, so the read triggers a batched fetch (one
network call) and returns the fetched value instead of the assigned 0. -/
theorem falsy_assigned_read_fetches_cx :
    (GraphQLV1.get GraphQLV1.issueRegistry false
       ⟨[("number", JSValue.num 0)], []⟩ "number"
       [("number", JSValue.num 1)] JSValue.undefined).calls = 1 ∧
    (GraphQLV1.get GraphQLV1.issueRegistry false
       ⟨[("number", JSValue.num 0)], []⟩ "number"
       [("number", JSValue.num 1)] JSValue.undefined).result = Except.ok (JSValue.num 1) ∧
    JSValue.num 1 ≠ JSValue.num 0 := by
  refine ⟨rfl, rfl, by decide⟩

/-- C2 (amended): reading an explicitly assigned own property returns the
assigned value with zero network calls and an untouched entity — on the
version-1 proxy for every truthy assigned value, and on the version-2
proxy for every defined assigned value. -/
theorem assigned_read_no_network_truthy_or_defined
    (reg : GraphQLV1.Registry) (loadGuard : Bool)
    (fields2 : List (String × GraphQLV2.Field2))
    (applyField : String → JSValue → JSValue)
    (e : GQObject) (prop : String) (v : JSValue)
    (containerMissing : Option String)
    (primResp : List (String × JSValue)) (relResp : JSValue)
    (h : e.props.lookup prop = some v) :
    (truthy v = true →
      GraphQLV1.get reg loadGuard e prop primResp relResp = ⟨Except.ok v, e, 0, []⟩) ∧
    (v ≠ JSValue.undefined →
      GraphQLV2.get fields2 applyField e prop containerMissing primResp relResp =
        ⟨Except.ok v, e, 0, []⟩) := by
  constructor
  · intro ht
    simp only [GraphQLV1.get, h, Option.getD_some, ht, if_true]
  · intro hv
    simp only [GraphQLV2.get, h, Option.getD_some, hv, if_false]

/-- C2 witness: reading the truthy identity field `number = 42` on both
proxy versions. -/
theorem assigned_read_no_network_truthy_or_defined_witness :
    ((⟨[("number", JSValue.num 42)], []⟩ : GQObject).props.lookup "number" =
      some (JSValue.num 42)) ∧
    ((truthy (JSValue.num 42) = true →
       GraphQLV1.get GraphQLV1.issueRegistry false ⟨[("number", JSValue.num 42)], []⟩
         "number" [] JSValue.undefined =
         ⟨Except.ok (JSValue.num 42), ⟨[("number", JSValue.num 42)], []⟩, 0, []⟩) ∧
     (JSValue.num 42 ≠ JSValue.undefined →
       GraphQLV2.get IssueV2._fields (fun _ v => v) ⟨[("number", JSValue.num 42)], []⟩
         "number" none [] JSValue.undefined =
         ⟨Except.ok (JSValue.num 42), ⟨[("number", JSValue.num 42)], []⟩, 0, []⟩)) :=
  ⟨by decide,
    assigned_read_no_network_truthy_or_defined GraphQLV1.issueRegistry false
      IssueV2._fields (fun _ v => v) ⟨[("number", JSValue.num 42)], []⟩ "number"
      (JSValue.num 42) none [] JSValue.undefined (by decide)⟩

/-- C3 counterexample: on the version-2 proxy, a successful batched fetch
whose response omits the requested registered primitive field (`color` of
a Label; the response carries only `name`) makes the read resolve to
`undefined` — no error is raised. -/
theorem omitted_field_returns_undefined_v2_cx :
    (GraphQLV2.get LabelV2._fields (fun _ v => v)
       ⟨[("name", JSValue.str "bug"), ("repository", JSValue.str "widgets"),
         ("owner", JSValue.str "acme")], []⟩
       "color" none [("name", JSValue.str "bug")] JSValue.undefined).result =
      Except.ok JSValue.undefined ∧
    (GraphQLV2.get LabelV2._fields (fun _ v => v)
       ⟨[("name", JSValue.str "bug"), ("repository", JSValue.str "widgets"),
         ("owner", JSValue.str "acme")], []⟩
       "color" none [("name", JSValue.str "bug")] JSValue.undefined).calls = 1 := by
  exact ⟨rfl, rfl⟩

/-- C3 (amended): when a successful batched primitive fetch omits the
requested registered primitive field, the version-1 proxy fails the read
with the ReferenceError naming the field, while the version-2 rewrite
resolves the read to `undefined` (its ReferenceError is reserved for
missing container keys). -/
theorem omitted_field_error_v1_undefined_v2
    (reg : GraphQLV1.Registry) (e : GQObject) (prop : String)
    (primResp : List (String × JSValue)) (relResp : JSValue)
    (fields2 : List (String × GraphQLV2.Field2))
    (applyField : String → JSValue → JSValue)
    (e2 : GQObject) (prop2 : String)
    (primResp2 : List (String × JSValue)) (relResp2 : JSValue)
    (h1 : e.props.lookup prop = none)
    (h2 : e._cache.lookup prop = none)
    (h3 : reg._manyToManyFields.contains prop = false)
    (h4 : reg._manyToOneFields.contains prop = false)
    (h5 : reg._primitiveFields.contains prop = true)
    (h6 : primResp.lookup prop = none)
    (g1 : e2.props.lookup prop2 = none)
    (g2 : fields2.lookup prop2 = some GraphQLV2.Field2.primitive)
    (g3 : e2._cache.lookup prop2 = none)
    (g4 : primResp2.lookup prop2 = none)
    (g5 : ∀ kv ∈ primResp2, (fields2.lookup kv.1).isSome) :
    (GraphQLV1.get reg false e prop primResp relResp).result =
      Except.error ("ReferenceError: Expected primitive " ++ prop ++
        " did not load properly from GitHub API.") ∧
    (GraphQLV2.get fields2 applyField e2 prop2 none primResp2 relResp2).result =
      Except.ok JSValue.undefined := by
  constructor
  · have hc : (cachePopulate e._cache primResp).lookup prop = none := by
      rw [cachePopulate_lookup_of_none h6 e._cache]
      exact h2
    simp only [GraphQLV1.get, h1, Option.getD_none, truthy, Bool.false_eq_true,
      if_false, h2, h3, h4, h5, if_true, hc]
  · rcases hpop : GraphQLV2.populate fields2 applyField e2._cache primResp2 with ⟨err, cache2⟩
    have herr : err = none := by
      have hfst := @GraphQLV2.populate_fst_none fields2 applyField primResp2 g5 e2._cache
      rw [hpop] at hfst
      exact hfst
    subst herr
    have hsnd : cache2.lookup prop2 = none := by
      have hpres := @GraphQLV2.populate_snd_lookup_not_mem fields2 applyField primResp2
        prop2 (not_mem_keys_of_lookup_none g4) e2._cache
      rw [hpop] at hpres
      exact hpres.trans g3
    simp only [GraphQLV2.get, g1, Option.getD_none, if_true, g2, g3, hpop, hsnd]

/-- C3 witness: a version-1 Issue reading `title` against a response
omitting it, and a version-2 Label reading `color` likewise. -/
theorem omitted_field_error_v1_undefined_v2_witness :
    ((⟨[("number", JSValue.num 42)], []⟩ : GQObject).props.lookup "title" = none) ∧
    (([("state", JSValue.str "OPEN")] : List (String × JSValue)).lookup "title" = none) ∧
    ((⟨[("name", JSValue.str "bug")], []⟩ : GQObject).props.lookup "color" = none) ∧
    (([("name", JSValue.str "bug")] : List (String × JSValue)).lookup "color" = none) ∧
    ((GraphQLV1.get GraphQLV1.issueRegistry false ⟨[("number", JSValue.num 42)], []⟩
        "title" [("state", JSValue.str "OPEN")] JSValue.undefined).result =
      Except.error ("ReferenceError: Expected primitive " ++ "title" ++
        " did not load properly from GitHub API.") ∧
     (GraphQLV2.get LabelV2._fields (fun _ v => v) ⟨[("name", JSValue.str "bug")], []⟩
        "color" none [("name", JSValue.str "bug")] JSValue.undefined).result =
      Except.ok JSValue.undefined) :=
  ⟨by decide, by decide, by decide, by decide,
    omitted_field_error_v1_undefined_v2 GraphQLV1.issueRegistry
      ⟨[("number", JSValue.num 42)], []⟩ "title" [("state", JSValue.str "OPEN")]
      JSValue.undefined LabelV2._fields (fun _ v => v)
      ⟨[("name", JSValue.str "bug")], []⟩ "color" [("name", JSValue.str "bug")]
      JSValue.undefined
      (by decide) (by decide) (by decide) (by decide) (by decide) (by decide)
      (by decide) (by decide) (by decide) (by decide)
      (by intro kv hkv; fin_cases hkv; decide)⟩

/-- C4: a registered field already present in the cache is returned from
the cache with zero network calls and no state change, on both proxy
versions (version 1 checks the cache before the registries; version 2
checks the `_fields` map, then the cache). -/
theorem cached_read_no_network_both_drafts
    (reg : GraphQLV1.Registry) (loadGuard : Bool) (e : GQObject) (prop : String)
    (v : JSValue) (primResp : List (String × JSValue)) (relResp : JSValue)
    (fields2 : List (String × GraphQLV2.Field2))
    (applyField : String → JSValue → JSValue)
    (e2 : GQObject) (prop2 : String) (f : GraphQLV2.Field2) (v2 : JSValue)
    (containerMissing : Option String)
    (primResp2 : List (String × JSValue)) (relResp2 : JSValue)
    (h1 : e.props.lookup prop = none)
    (h2 : e._cache.lookup prop = some v)
    (g1 : e2.props.lookup prop2 = none)
    (g2 : fields2.lookup prop2 = some f)
    (g3 : e2._cache.lookup prop2 = some v2) :
    GraphQLV1.get reg loadGuard e prop primResp relResp = ⟨Except.ok v, e, 0, []⟩ ∧
    GraphQLV2.get fields2 applyField e2 prop2 containerMissing primResp2 relResp2 =
      ⟨Except.ok v2, e2, 0, []⟩ := by
  constructor
  · simp only [GraphQLV1.get, h1, Option.getD_none, truthy, Bool.false_eq_true,
      if_false, h2]
  · simp only [GraphQLV2.get, g1, Option.getD_none, if_true, g2, g3]

/-- C4 witness: a cached `title` read on both proxy versions. -/
theorem cached_read_no_network_both_drafts_witness :
    ((⟨[("number", JSValue.num 42)], [("title", JSValue.str "Hi")]⟩ : GQObject).props.lookup "title" = none) ∧
    ((⟨[("number", JSValue.num 42)], [("title", JSValue.str "Hi")]⟩ : GQObject)._cache.lookup "title" =
      some (JSValue.str "Hi")) ∧
    IssueV2._fields.lookup "title" = some GraphQLV2.Field2.primitive ∧
    (GraphQLV1.get GraphQLV1.issueRegistry false
       ⟨[("number", JSValue.num 42)], [("title", JSValue.str "Hi")]⟩ "title" [] JSValue.undefined =
       ⟨Except.ok (JSValue.str "Hi"),
         ⟨[("number", JSValue.num 42)], [("title", JSValue.str "Hi")]⟩, 0, []⟩ ∧
     GraphQLV2.get IssueV2._fields (fun _ v => v)
       ⟨[("number", JSValue.num 42)], [("title", JSValue.str "Hi")]⟩ "title" none [] JSValue.undefined =
       ⟨Except.ok (JSValue.str "Hi"),
         ⟨[("number", JSValue.num 42)], [("title", JSValue.str "Hi")]⟩, 0, []⟩) :=
  ⟨by decide, by decide, by decide,
    cached_read_no_network_both_drafts GraphQLV1.issueRegistry false
      ⟨[("number", JSValue.num 42)], [("title", JSValue.str "Hi")]⟩ "title"
      (JSValue.str "Hi") [] JSValue.undefined IssueV2._fields (fun _ v => v)
      ⟨[("number", JSValue.num 42)], [("title", JSValue.str "Hi")]⟩ "title"
      GraphQLV2.Field2.primitive (JSValue.str "Hi") none [] JSValue.undefined
      (by decide) (by decide) (by decide) (by decide) (by decide)⟩

/-- C5 counterexample: on the version-1 proxy the cache check precedes the
registry check, so a cached name absent from every registry returns its
cached value — not `undefined` — still with zero network calls. -/
theorem unregistered_cached_read_v1_cx :
    (GraphQLV1.get GraphQLV1.issueRegistry false
       ⟨[], [("extraField", JSValue.num 5)]⟩ "extraField" [] JSValue.undefined).result =
      Except.ok (JSValue.num 5) ∧
    (GraphQLV1.get GraphQLV1.issueRegistry false
       ⟨[], [("extraField", JSValue.num 5)]⟩ "extraField" [] JSValue.undefined).calls = 0 ∧
    JSValue.num 5 ≠ JSValue.undefined := by
  exact ⟨rfl, rfl, by decide⟩

/-- C5 (amended): a property neither set on the instance nor present in
the registry yields `undefined` with no error and no network call — on the
version-2 proxy unconditionally (the `_fields` check precedes the cache),
and on the version-1 proxy provided the name is also absent from the cache,
since there the cache check comes first and a cached unregistered name
returns its cached value. -/
theorem unregistered_read_yields_undefined_amended
    (reg : GraphQLV1.Registry) (loadGuard : Bool) (e : GQObject) (prop : String)
    (primResp : List (String × JSValue)) (relResp : JSValue)
    (fields2 : List (String × GraphQLV2.Field2))
    (applyField : String → JSValue → JSValue)
    (e2 : GQObject) (prop2 : String) (containerMissing : Option String)
    (primResp2 : List (String × JSValue)) (relResp2 : JSValue)
    (h1 : e.props.lookup prop = none)
    (h2 : e._cache.lookup prop = none)
    (h3 : reg._manyToManyFields.contains prop = false)
    (h4 : reg._manyToOneFields.contains prop = false)
    (h5 : reg._primitiveFields.contains prop = false)
    (g1 : e2.props.lookup prop2 = none)
    (g2 : fields2.lookup prop2 = none) :
    GraphQLV1.get reg loadGuard e prop primResp relResp =
      ⟨Except.ok JSValue.undefined, e, 0, []⟩ ∧
    GraphQLV2.get fields2 applyField e2 prop2 containerMissing primResp2 relResp2 =
      ⟨Except.ok JSValue.undefined, e2, 0, []⟩ := by
  constructor
  · simp only [GraphQLV1.get, h1, Option.getD_none, truthy, Bool.false_eq_true,
      if_false, h2, h3, h4, h5]
  · simp only [GraphQLV2.get, g1, Option.getD_none, if_true, g2]

/-- C5 witness: reading a name unknown to instance, registries and cache. -/
theorem unregistered_read_yields_undefined_amended_witness :
    ((⟨[("number", JSValue.num 42)], []⟩ : GQObject).props.lookup "nonexistent" = none) ∧
    ((⟨[("number", JSValue.num 42)], []⟩ : GQObject)._cache.lookup "nonexistent" = none) ∧
    GraphQLV1.issueRegistry._primitiveFields.contains "nonexistent" = false ∧
    IssueV2._fields.lookup "nonexistent" = none ∧
    (GraphQLV1.get GraphQLV1.issueRegistry false ⟨[("number", JSValue.num 42)], []⟩
       "nonexistent" [] JSValue.undefined =
       ⟨Except.ok JSValue.undefined, ⟨[("number", JSValue.num 42)], []⟩, 0, []⟩ ∧
     GraphQLV2.get IssueV2._fields (fun _ v => v) ⟨[("number", JSValue.num 42)], []⟩
       "nonexistent" none [] JSValue.undefined =
       ⟨Except.ok JSValue.undefined, ⟨[("number", JSValue.num 42)], []⟩, 0, []⟩) :=
  ⟨by decide, by decide, by decide, by decide,
    unregistered_read_yields_undefined_amended GraphQLV1.issueRegistry false
      ⟨[("number", JSValue.num 42)], []⟩ "nonexistent" [] JSValue.undefined
      IssueV2._fields (fun _ v => v) ⟨[("number", JSValue.num 42)], []⟩ "nonexistent"
      none [] JSValue.undefined
      (by decide) (by decide) (by decide) (by decide) (by decide) (by decide)
      (by decide)⟩

/-- C6: on the REST-based Issue, a read of a cached data field costs no
REST call, both label mutations end with the cache cleared (the
`addLabels` success callback clears it before its stray `resolve()`
raises, and `removeLabels` clears it in its `finally`), and a read of the
same field after either mutation performs exactly one fresh REST fetch. -/
theorem issue_mutations_clear_cache_and_refetch {V : Type}
    (inst : List (String × V)) (st : IssueREST.State V)
    (d data : List (String × V)) (prop : String) (status : Nat) (labels : List String)
    (h1 : st._issue = some d)
    (h2 : inst.lookup prop = none) :
    (IssueREST.getRun inst st prop status data).2.2 = 0 ∧
    (IssueREST.addLabelsRun st labels).1._issue = none ∧
    (IssueREST.removeLabelsRun st labels).1._issue = none ∧
    (IssueREST.getRun inst (IssueREST.addLabelsRun st labels).1 prop status data).2.2 = 1 ∧
    (IssueREST.getRun inst (IssueREST.removeLabelsRun st labels).1 prop status data).2.2 = 1 := by
  have hcleared : ∀ stc : IssueREST.State V, stc._issue = none →
      (IssueREST.getRun inst stc prop status data).2.2 = 1 := by
    intro stc hc
    by_cases hstat : status < 200 || 299 < status
    · simp only [IssueREST.getRun, h2, IssueREST.loadRun, hc, Option.isSome_none,
        Bool.false_and, Bool.false_eq_true, if_false, hstat, if_true]
    · simp only [IssueREST.getRun, h2, IssueREST.loadRun, hc, Option.isSome_none,
        Bool.false_and, Bool.false_eq_true, if_false, hstat, if_true]
  refine ⟨?_, rfl, rfl, ?_, ?_⟩
  · simp only [IssueREST.getRun, h2, IssueREST.loadRun, h1, Option.isSome_some,
      Bool.not_false, Bool.and_true, if_true]
  · exact hcleared _ rfl
  · exact hcleared _ rfl

/-- C6 witness: a cached Issue whose `title` was cached before the
mutations, read again after `addLabels` and `removeLabels`. -/
theorem issue_mutations_clear_cache_and_refetch_witness :
    ((⟨some [("title", 3)]⟩ : IssueREST.State Nat)._issue = some [("title", 3)]) ∧
    (([("number", 42)] : List (String × Nat)).lookup "title" = none) ∧
    ((IssueREST.getRun [("number", 42)] ⟨some [("title", 3)]⟩ "title" 200 [("title", 4)]).2.2 = 0 ∧
     (IssueREST.addLabelsRun (⟨some [("title", 3)]⟩ : IssueREST.State Nat) ["bug"]).1._issue = none ∧
     (IssueREST.removeLabelsRun (⟨some [("title", 3)]⟩ : IssueREST.State Nat) ["bug"]).1._issue = none ∧
     (IssueREST.getRun [("number", 42)]
       (IssueREST.addLabelsRun (⟨some [("title", 3)]⟩ : IssueREST.State Nat) ["bug"]).1
       "title" 200 [("title", 4)]).2.2 = 1 ∧
     (IssueREST.getRun [("number", 42)]
       (IssueREST.removeLabelsRun (⟨some [("title", 3)]⟩ : IssueREST.State Nat) ["bug"]).1
       "title" 200 [("title", 4)]).2.2 = 1) :=
  ⟨rfl, by decide,
    issue_mutations_clear_cache_and_refetch [("number", 42)] ⟨some [("title", 3)]⟩
      [("title", 3)] [("title", 4)] "title" 200 ["bug"] rfl (by decide)⟩

/-- C7: the version-2 `set` proxy handler contradicts the claimed (and
JSDoc-documented) contract: a write to a registered non-relational field
not present on the instance typecasts the value into the cache and then —
the branch having no return statement — falls through to the unconditional
TypeError, and no mutation is ever sent; so the TypeError is not limited
to the unregistered case. -/
theorem set_registered_primitive_write_throws_typeerror
    (fields2 : List (String × GraphQLV2.Field2))
    (applyField : String → JSValue → JSValue)
    (e : GQObject) (prop : String) (v : JSValue)
    (h1 : e.props.lookup prop = none)
    (h2 : fields2.lookup prop = some GraphQLV2.Field2.primitive) :
    (GraphQLV2.set fields2 applyField e prop v).outcome =
      Except.error ("TypeError: Property " ++ prop ++
        " cannot be set on a GraphQL object.") ∧
    (GraphQLV2.set fields2 applyField e prop v).entity._cache.lookup prop =
      some (applyField prop v) := by
  have hred : GraphQLV2.set fields2 applyField e prop v =
      ⟨Except.error ("TypeError: Property " ++ prop ++
         " cannot be set on a GraphQL object."),
        ⟨e.props, cacheSet e._cache prop (applyField prop v)⟩⟩ := by
    simp only [GraphQLV2.set, h1, Option.isSome_none, Bool.false_eq_true, if_false, h2]
  refine ⟨by rw [hred], ?_⟩
  rw [hred]
  exact cacheSet_lookup_self

/-- C7 witness: the failing input — `issue.title = "New title to test"`
(`title` is a `String`-typed entry of `Issue._fields` and not an own
property of the Issue instance). -/
theorem set_registered_primitive_write_throws_typeerror_witness :
    ((⟨[("number", JSValue.num 42), ("repository", JSValue.str "widgets"),
        ("owner", JSValue.str "acme")], []⟩ : GQObject).props.lookup "title" = none) ∧
    IssueV2._fields.lookup "title" = some GraphQLV2.Field2.primitive ∧
    ((GraphQLV2.set IssueV2._fields (fun _ v => v)
        ⟨[("number", JSValue.num 42), ("repository", JSValue.str "widgets"),
          ("owner", JSValue.str "acme")], []⟩
        "title" (JSValue.str "New title to test")).outcome =
      Except.error ("TypeError: Property " ++ "title" ++
        " cannot be set on a GraphQL object.") ∧
     (GraphQLV2.set IssueV2._fields (fun _ v => v)
        ⟨[("number", JSValue.num 42), ("repository", JSValue.str "widgets"),
          ("owner", JSValue.str "acme")], []⟩
        "title" (JSValue.str "New title to test")).entity._cache.lookup "title" =
      some (JSValue.str "New title to test")) :=
  ⟨by decide, by decide,
    set_registered_primitive_write_throws_typeerror IssueV2._fields (fun _ v => v)
      ⟨[("number", JSValue.num 42), ("repository", JSValue.str "widgets"),
        ("owner", JSValue.str "acme")], []⟩
      "title" (JSValue.str "New title to test") (by decide) (by decide)⟩

/-- C8: a collection-relation fetch issues exactly one GraphQL request
bounded by the configured page size (`ProjectV2Item._PAGE_SIZE = 2`, and
`GraphQLAbstract._PAGE_SIZE = 20` inherited by `Label.create`), never
follows up for further pages, and — since a server honouring the bound
returns at most that many nodes — yields at most that many entities even
when `totalCount` reports that more exist. -/
theorem collection_fetch_single_query_page_capped {V : Type}
    (conn : Connection V) (connL : Connection JSValue)
    (ctxRepo ctxOwner owner repository : JSValue)
    (hp : conn.nodes.length ≤ ProjectV2Item.PAGE_SIZE)
    (hl : connL.nodes.length ≤ GraphQLV2._PAGE_SIZE) :
    (ProjectV2Item.create (some conn) ProjectV2Item.PAGE_SIZE).graphqlCalls = 1 ∧
    (ProjectV2Item.create (some conn) ProjectV2Item.PAGE_SIZE).requestedFirst = 2 ∧
    (ProjectV2Item.create (some conn) ProjectV2Item.PAGE_SIZE).items.length ≤
      ProjectV2Item.PAGE_SIZE ∧
    (LabelV2.create ctxRepo ctxOwner owner repository (some connL)
      GraphQLV2._PAGE_SIZE).graphqlCalls = 1 ∧
    (LabelV2.create ctxRepo ctxOwner owner repository (some connL)
      GraphQLV2._PAGE_SIZE).requestedFirst = 20 ∧
    (∀ items, (LabelV2.create ctxRepo ctxOwner owner repository (some connL)
        GraphQLV2._PAGE_SIZE).result = Except.ok items →
      items.length ≤ GraphQLV2._PAGE_SIZE) := by
  refine ⟨rfl, rfl, ?_, rfl, rfl, ?_⟩
  · simp only [ProjectV2Item.create, List.length_map]
    exact hp
  · intro items hok
    have hlen : items.length = connL.nodes.length := LabelV2.buildAll_ok_length hok
    rw [hlen]
    exact hl

/-- C8 witness: responses whose `totalCount` reports more records than
the page bound while the node page respects it. -/
theorem collection_fetch_single_query_page_capped_witness :
    ((⟨50, [[("id", 1)], [("id", 2)]]⟩ : Connection Nat).nodes.length ≤
      ProjectV2Item.PAGE_SIZE) ∧
    ((⟨50, [[("name", JSValue.str "bug")]]⟩ : Connection JSValue).nodes.length ≤
      GraphQLV2._PAGE_SIZE) ∧
    ((ProjectV2Item.create (some (⟨50, [[("id", 1)], [("id", 2)]]⟩ : Connection Nat))
        ProjectV2Item.PAGE_SIZE).graphqlCalls = 1 ∧
     (ProjectV2Item.create (some (⟨50, [[("id", 1)], [("id", 2)]]⟩ : Connection Nat))
        ProjectV2Item.PAGE_SIZE).requestedFirst = 2 ∧
     (ProjectV2Item.create (some (⟨50, [[("id", 1)], [("id", 2)]]⟩ : Connection Nat))
        ProjectV2Item.PAGE_SIZE).items.length ≤ ProjectV2Item.PAGE_SIZE ∧
     (LabelV2.create (JSValue.str "ctxrepo") (JSValue.str "ctxowner")
        (JSValue.str "acme") (JSValue.str "widgets")
        (some (⟨50, [[("name", JSValue.str "bug")]]⟩ : Connection JSValue))
        GraphQLV2._PAGE_SIZE).graphqlCalls = 1 ∧
     (LabelV2.create (JSValue.str "ctxrepo") (JSValue.str "ctxowner")
        (JSValue.str "acme") (JSValue.str "widgets")
        (some (⟨50, [[("name", JSValue.str "bug")]]⟩ : Connection JSValue))
        GraphQLV2._PAGE_SIZE).requestedFirst = 20 ∧
     (∀ items, (LabelV2.create (JSValue.str "ctxrepo") (JSValue.str "ctxowner")
          (JSValue.str "acme") (JSValue.str "widgets")
          (some (⟨50, [[("name", JSValue.str "bug")]]⟩ : Connection JSValue))
          GraphQLV2._PAGE_SIZE).result = Except.ok items →
        items.length ≤ GraphQLV2._PAGE_SIZE)) :=
  ⟨by decide, by decide,
    collection_fetch_single_query_page_capped
      (⟨50, [[("id", 1)], [("id", 2)]]⟩ : Connection Nat)
      (⟨50, [[("name", JSValue.str "bug")]]⟩ : Connection JSValue)
      (JSValue.str "ctxrepo") (JSValue.str "ctxowner")
      (JSValue.str "acme") (JSValue.str "widgets") (by decide) (by decide)⟩

/-- C9 counterexample: `Label._build` DOES raise the Missing-required
ReferenceError for an input that has a property named "false": the
`if (!key in data)` precedence slip makes the required-field check test
exactly that, and the error names "owner" (the first required key). -/
theorem label_build_false_key_raises_cx :
    LabelV2._build JSValue.undefined JSValue.undefined
      [("false", JSValue.num 1)] true =
      Except.error "ReferenceError: Missing required Label field: owner" := by
  rfl

/-- C9 (amended): for every input data object without a property named
"false", `Label._build` with its default `ignoreAdditional = true` never
raises — in particular the required-field check never fires even when
`owner`, `repository` or `name` is absent — and the built Label's cache
holds every key/value pair of the input. -/
theorem label_build_ignores_missing_required_fields
    (ctxRepo ctxOwner : JSValue) (data : List (String × JSValue))
    (h1 : data.lookup "false" = none)
    (h2 : (data.map Prod.fst).Nodup) :
    LabelV2._build ctxRepo ctxOwner data true =
      Except.ok (LabelV2._buildTrue ctxRepo ctxOwner data) ∧
    (∀ k v, data.lookup k = some v →
      (LabelV2._buildTrue ctxRepo ctxOwner data)._cache.lookup k = some v) := by
  refine ⟨LabelV2.label_build_true_eq ctxRepo ctxOwner data h1, ?_⟩
  intro k v hv
  show (cachePopulate [] data).lookup k = some v
  exact cachePopulate_lookup_of_some h2 hv []

/-- C9 witness: building from data that lacks `owner`, `repository` and
`name` entirely. -/
theorem label_build_ignores_missing_required_fields_witness :
    (([("color", JSValue.str "red")] : List (String × JSValue)).lookup "false" = none) ∧
    (([("color", JSValue.str "red")].map Prod.fst).Nodup) ∧
    (LabelV2._build (JSValue.str "ctxrepo") (JSValue.str "ctxowner")
       [("color", JSValue.str "red")] true =
       Except.ok (LabelV2._buildTrue (JSValue.str "ctxrepo") (JSValue.str "ctxowner")
         [("color", JSValue.str "red")]) ∧
     (∀ k v, ([("color", JSValue.str "red")] : List (String × JSValue)).lookup k = some v →
       (LabelV2._buildTrue (JSValue.str "ctxrepo") (JSValue.str "ctxowner")
         [("color", JSValue.str "red")])._cache.lookup k = some v)) :=
  ⟨by decide, by decide,
    label_build_ignores_missing_required_fields (JSValue.str "ctxrepo")
      (JSValue.str "ctxowner") [("color", JSValue.str "red")] (by decide) (by decide)⟩

/-- C10: over every finite call sequence from construction, the Logger's
`_groupLevel` stays non-negative; `endGroup` throws its `RangeError`
exactly when the level is zero (no group of this Logger remains open) and
leaves the counter unchanged when it does; and `endAllGroups` always
terminates with the counter at zero. -/
theorem logger_group_level_never_negative (ops : List Logger.Op) :
    0 ≤ Logger.runOps ops ∧
    ((∃ msg, Logger.endGroupRun (Logger.runOps ops) = Except.error msg) ↔
      Logger.runOps ops = 0) ∧
    (Logger.runOps ops = 0 →
      Logger.runOp (Logger.runOps ops) Logger.Op.endGroup = Logger.runOps ops) ∧
    Logger.endAllGroupsRun (Logger.runOps ops) = 0 := by
  have h0 : 0 ≤ Logger.runOps ops := Logger.runOps_nonneg ops
  refine ⟨h0, ?_, ?_, Logger.endAllGroupsRun_eq_zero h0⟩
  · constructor
    · rintro ⟨msg, hmsg⟩
      by_cases hle : Logger.runOps ops ≤ 0
      · omega
      · rw [Logger.endGroupRun, if_neg hle] at hmsg
        exact Except.noConfusion hmsg
    · intro hz
      refine ⟨"RangeError: Attempting to close logging group that Logger did not create.", ?_⟩
      rw [Logger.endGroupRun, if_pos (by omega)]
  · intro hz
    have hle : Logger.runOps ops ≤ 0 := by omega
    simp only [Logger.runOp, Logger.endGroupRun, hle, if_true]

/-- C10 witness: a sequence that opens two groups, closes one, drains the
rest, and then hits the guard. -/
theorem logger_group_level_never_negative_witness :
    0 ≤ Logger.runOps [Logger.Op.startGroup, Logger.Op.startGroup, Logger.Op.endGroup,
      Logger.Op.endAllGroups, Logger.Op.endGroup] ∧
    ((∃ msg, Logger.endGroupRun (Logger.runOps [Logger.Op.startGroup, Logger.Op.startGroup,
        Logger.Op.endGroup, Logger.Op.endAllGroups, Logger.Op.endGroup]) = Except.error msg) ↔
      Logger.runOps [Logger.Op.startGroup, Logger.Op.startGroup, Logger.Op.endGroup,
        Logger.Op.endAllGroups, Logger.Op.endGroup] = 0) ∧
    (Logger.runOps [Logger.Op.startGroup, Logger.Op.startGroup, Logger.Op.endGroup,
        Logger.Op.endAllGroups, Logger.Op.endGroup] = 0 →
      Logger.runOp (Logger.runOps [Logger.Op.startGroup, Logger.Op.startGroup,
        Logger.Op.endGroup, Logger.Op.endAllGroups, Logger.Op.endGroup]) Logger.Op.endGroup =
        Logger.runOps [Logger.Op.startGroup, Logger.Op.startGroup, Logger.Op.endGroup,
          Logger.Op.endAllGroups, Logger.Op.endGroup]) ∧
    Logger.endAllGroupsRun (Logger.runOps [Logger.Op.startGroup, Logger.Op.startGroup,
      Logger.Op.endGroup, Logger.Op.endAllGroups, Logger.Op.endGroup]) = 0 :=
  logger_group_level_never_negative [Logger.Op.startGroup, Logger.Op.startGroup,
    Logger.Op.endGroup, Logger.Op.endAllGroups, Logger.Op.endGroup]
